import Mathlib

/-!
Verification of the ftp-deploy diff/sync orchestrator against its source.

The development shallowly embeds the three source files of the repository:

* `deploy.ts` (src/unnamed/part_000): `downloadFileList`, `getServerFiles`,
  `connect`, `createLocalState`, `ensureStateFileExists`, `deploy`.
* `syncProvider.ts` (src/syncProvider.ts): class `FTPSyncProvider` in the
  variant whose `syncLocalToServer` wraps the five apply loops in a
  `try/catch` that writes the state file before re-raising.  Embedded in
  namespace `SyncTs`.
* the second sync-provider variant (src/unnamed/part_001): class
  `FTPSyncProvider` in the variant whose `syncLocalToServer` counts
  operations and uploads the state file to the server after every 5
  operations (`flushState`).  Embedded in namespace `SyncP1`.

Remote and local side effects are embedded as traces: each provider method
is translated into a function returning the list of transport calls, local
file-system writes and log lines it performs on its success path, in the
order the TypeScript awaits them.  The retry wrapper `safeOperation` is
embedded over an oracle `Nat → Except JsError α` giving the outcome of each
attempt of the wrapped FTP call.  Verbose-level log lines, timing calls and
the text produced by the external formatting helpers `prettyBytes` and
`pluralize` (whose sources are outside this repository) are elided from the
traces; `all`/`standard`-level log lines are kept.
-/

/-- Model of a JavaScript `Error` as thrown/caught by the provider: the
`message` string, plus the optional numeric `code` carried by `FTPError`
values from the `basic-ftp` transport.  A fresh `new Error(msg)` has no
`code`, hence `code := none`. -/
structure JsError where
  message : String
  code : Option Nat
deriving DecidableEq, Repr

/-- Entry kind, the TypeScript union type literal `"file" | "folder"`. -/
inductive ItemType where
  | file
  | folder
deriving DecidableEq, Repr

/-- One entry of a sync state file (`Record` in `types.ts`): a file or
folder name plus an optional byte size. -/
structure Rec where
  type : ItemType
  name : String
  size : Option Nat
deriving DecidableEq, Repr

/-- The `DiffResult` consumed by `FTPSyncProvider.syncLocalToServer`:
the change-set buckets plus the aggregate byte counters. -/
structure DiffResult where
  upload : List Rec
  replace : List Rec
  delete : List Rec
  same : List Rec
  sizeUpload : Nat
  sizeReplace : Nat
  sizeDelete : Nat
deriving DecidableEq, Repr

/-- The persisted manifest (`IFileList` in `types.ts`). -/
structure IFileList where
  description : String
  version : String
  generatedTime : Nat
  data : List Rec
deriving DecidableEq, Repr

/-- Modelled from the spec: `types.ts` is not among the source files in
src/; the schema version constant is taken from the literal `"1.0.0"` that
the part_001 constructor writes into a fresh state. -/
def currentSyncFileVersion : String := "1.0.0"

/-- Modelled from the spec: `types.ts` is not among the source files in
src/; the description text of a fresh state file.  Its exact value is
immaterial to every claim below. -/
def syncFileDescription : String := "Sync state file"

/-- Modelled from the spec: `ErrorCode.FileNotFoundOrNoAccess` from
`types.ts` (not in src/), the FTP reply code for a delete target that is
missing or unreadable.  Its exact numeric value is immaterial to the
claims below; 550 is the conventional FTP code. -/
def fileNotFoundOrNoAccess : Nat := 550

/-- Character-list test: is `p` an initial segment of `l`?  Used to embed
the JavaScript string methods over the character sequence of a string. -/
def listHasPre : List Char → List Char → Bool
  | [], _ => true
  | _ :: _, [] => false
  | p :: ps, c :: cs => p == c && listHasPre ps cs

/-- Character-list test: does `pat` occur contiguously inside `l`?  Embeds
`String.prototype.includes`. -/
def listHasSub (pat : List Char) : List Char → Bool
  | [] => pat.isEmpty
  | c :: t => listHasPre pat (c :: t) || listHasSub pat t

/-- Embedding of `s.startsWith(pre)` on JavaScript strings. -/
def strStartsWith (s pre : String) : Bool :=
  listHasPre pre.toList s.toList

/-- Embedding of `s.includes(sub)` on JavaScript strings. -/
def strIncludes (s sub : String) : Bool :=
  listHasSub sub.toList s.toList

/-- Drop the first `n` characters of a string. -/
def strDrop (s : String) (n : Nat) : String :=
  ⟨s.toList.drop n⟩

/-- Split a character list at every separator, keeping empty pieces, as
`String.prototype.split` does. -/
def splitOnChar (sep : Char) : List Char → List (List Char)
  | [] => [[]]
  | c :: t =>
    let r := splitOnChar sep t
    if c == sep then [] :: r
    else
      match r with
      | [] => [[c]]
      | h :: t2 => (c :: h) :: t2

/-- Embedding of `fullPath.split("/")`. -/
def strSplitSlash (s : String) : List String :=
  (splitOnChar '/' s.toList).map (fun l => ⟨l⟩)

/-- Embedding of `array.join("/")`. -/
def strJoinSlash : List String → String
  | [] => ""
  | [s] => s
  | s :: rest => s ++ "/" ++ strJoinSlash rest

/-- The `IFilePath` produced by `getFileBreadcrumbs`. -/
structure IFilePath where
  folders : Option (List String)
  file : Option String
deriving DecidableEq, Repr

/-- Embedding of `FTPSyncProvider.getFileBreadcrumbs` (identical in both
provider variants): split the path on `/`, pop the last component as the
file, keep the non-empty leading components as the folder chain. -/
def getFileBreadcrumbs (fullPath : String) : IFilePath :=
  let pathSplit := strSplitSlash fullPath
  let file := pathSplit.getLast?.getD ""
  let folders := pathSplit.dropLast.filter (fun s => s != "")
  { folders := if folders.length == 0 then none else some folders
    file := if file == "" then none else some file }

/-- Transient-fault classification inside `safeOperation` (part_001
variant): the error message is substring-matched against the two
connection-dropped signatures. -/
def isTransient (e : JsError) : Bool :=
  strIncludes e.message "Client is closed" || strIncludes e.message "Server sent FIN packet"

/-- Events recorded by the embedding of `safeOperation`: only the
reconnects matter to the claims; `console` logging is elided. -/
inductive RetryEv where
  | reconnectEv
deriving DecidableEq, Repr

/-- Message of the error thrown when the retry budget is exhausted:
`Operation failed after N attempts: M` where `M` is the message of the
last stored error (JavaScript renders `lastError?.message` of a null
`lastError` as `undefined`). -/
def exhaustMsg (retries : Nat) (lastErr : Option JsError) : String :=
  "Operation failed after " ++ Nat.repr retries ++ " attempts: " ++
    (match lastErr with
     | some e => e.message
     | none => "undefined")

/-- The retry loop of `FTPSyncProvider.safeOperation`: `remaining` counts
the loop iterations left, `attempt` is the current 0-based attempt index,
`lastErr` the last caught error.  `op k` is the outcome of attempt `k` of
the wrapped FTP call.  On a failure classified transient, `reconnect()` is
awaited (recorded as a `reconnectEv`); otherwise the failure is only
logged.  After the loop a fresh `Error` (so `code := none`) carrying the
attempt budget and the last message is thrown. -/
def safeOpLoop (op : Nat → Except JsError α) (retries : Nat) :
    Nat → Nat → Option JsError → Except JsError α × List RetryEv
  | 0, _, lastErr => (.error ⟨exhaustMsg retries lastErr, none⟩, [])
  | remaining + 1, attempt, _ =>
    match op attempt with
    | .ok v => (.ok v, [])
    | .error e =>
      let pre := if isTransient e then [RetryEv.reconnectEv] else []
      let rest := safeOpLoop op retries remaining (attempt + 1) (some e)
      (rest.1, pre ++ rest.2)

/-- Embedding of `FTPSyncProvider.safeOperation(operation, retries = 3)`
(part_001 variant): first component is the returned value or the thrown
error, second the reconnects performed along the way. -/
def safeOperation (op : Nat → Except JsError α) (retries : Nat := 3) :
    Except JsError α × List RetryEv :=
  safeOpLoop op retries retries 0 none

/-- Embedding of `FTPSyncProvider.removeFile`'s outcome: in dry-run mode
nothing is attempted; otherwise `client.remove` is run through
`safeOperation`, and the caught error is tolerated as a no-op exactly when
its `code` equals `ErrorCode.FileNotFoundOrNoAccess`, else re-thrown.
`op k` is the outcome of attempt `k` of `client.remove(filePath)`. -/
def removeFileResult (op : Nat → Except JsError Unit) (dryRun : Bool) :
    Except JsError Unit :=
  if dryRun then .ok ()
  else
    match (safeOperation op 3).1 with
    | .ok _ => .ok ()
    | .error e =>
      if e.code == some fileNotFoundOrNoAccess then .ok () else .error e

/-- Embedding of the absolute-path computation in
`FTPSyncProvider.removeFolder` (identical in both variants):
`"/" + (serverPath.startsWith("./") ? serverPath.replace("./", "") : serverPath) + folderPath`.
Under the `startsWith` guard, `replace("./", "")` removes the first
occurrence of `./`, which is the leading two characters. -/
def removeFolderAbsolutePath (serverPath folderPath : String) : String :=
  "/" ++ (if strStartsWith serverPath "./" then strDrop serverPath 2 else serverPath) ++ folderPath

/-- Transport security mode passed to `client.access`: the JavaScript
`secure` option is `false`, `true` (explicit TLS) or `"implicit"`. -/
inductive SecureMode where
  | off
  | explicitTLS
  | implicitTLS
deriving DecidableEq, Repr

/-- The options object handed to `client.access`, restricted to the fields
the source sets: `port := none` models an `access` call whose options
object has no `port` property. -/
structure AccessConfig where
  host : String
  user : String
  password : String
  port : Option Nat
  secure : SecureMode
  rejectUnauthorized : Bool
deriving DecidableEq, Repr

/-- The `protocol` argument of `deploy`. -/
inductive FtpProtocol where
  | ftp
  | ftps
  | ftpsLegacy
deriving DecidableEq, Repr

/-- The `security` argument of `deploy`. -/
inductive FtpSecurity where
  | strict
  | loose
deriving DecidableEq, Repr

/-- The connection-relevant deploy arguments. -/
structure DeployArgs where
  server : String
  username : String
  password : String
  port : Nat
  protocol : FtpProtocol
  security : FtpSecurity
deriving DecidableEq, Repr

/-- The `secure` option computed by `connect` in deploy.ts: `false` for
plain ftp, `true` for ftps, `"implicit"` for ftps-legacy. -/
def secureModeFor : FtpProtocol → SecureMode
  | .ftp => .off
  | .ftps => .explicitTLS
  | .ftpsLegacy => .implicitTLS

/-- Embedding of the `client.access` options built by `connect` in
deploy.ts: host/user/password/port from the arguments, `secure` from the
protocol, `rejectUnauthorized` true exactly for strict security. -/
def connectAccessConfig (args : DeployArgs) : AccessConfig :=
  { host := args.server
    user := args.username
    password := args.password
    port := some args.port
    secure := secureModeFor args.protocol
    rejectUnauthorized := args.security == FtpSecurity.strict }

/-- Embedding of the `client.access` options built by
`FTPSyncProvider.reconnect` (identical in both provider variants): only
host/user/password are taken from the session, no `port` is passed, and
`secure: true` with `rejectUnauthorized: false` is hard-coded. -/
def reconnectAccessConfig (server username password : String) : AccessConfig :=
  { host := server
    user := username
    password := password
    port := none
    secure := .explicitTLS
    rejectUnauthorized := false }

/-- Empty server state synthesized by the catch branch of
`getServerFiles` in deploy.ts. -/
def emptyServerState (now : Nat) : IFileList :=
  { description := syncFileDescription
    version := currentSyncFileVersion
    generatedTime := now
    data := [] }

/-- Embedding of `getServerFiles` in deploy.ts.  `fetchParse` is the
combined outcome of the try block up to and including
`downloadFileList` (`ensureDir`, `client.downloadTo` and `JSON.parse`):
an exception from any of them is a `.error`.  When `dangerous-clean-slate`
is set the try block always ends in a thrown error.  Any error is caught
and replaced by a fresh empty state stamped with the current time;
otherwise the parsed list is used after the exclude filter (`keep` embeds
`applyExcludeFilter`, whose source lives in `utilities.ts` outside src/,
applied only when the exclude list is non-empty).  No field of the parsed
list other than `data` is inspected. -/
def getServerFiles (cleanSlate : Bool) (fetchParse : Except JsError IFileList)
    (exclude : List String) (keep : Rec → Bool) (now : Nat) : IFileList :=
  let tryResult : Except JsError IFileList :=
    if cleanSlate then .error ⟨"dangerous-clean-slate was run", none⟩ else fetchParse
  match tryResult with
  | .error _ => emptyServerState now
  | .ok serverFiles =>
    if exclude.length > 0 then
      { serverFiles with data := serverFiles.data.filter keep }
    else serverFiles

/-- Parameters of an `FTPSyncProvider` instance relevant to the traces. -/
structure SyncParams where
  localPath : String
  serverPath : String
  stateName : String
  dryRun : Bool
deriving DecidableEq, Repr

/-- Events of a sync-provider trace, in the order the TypeScript awaits
them.  Transport calls: `ensureDirCall` (create-if-absent directory walk),
`cdupCall`, `uploadFromCall`, `removeCall`, `removeDirCall`,
`statePushCall` (the `client.uploadFrom` of the state file performed by
`flushState`), `noopProbe` (the `sendNoopIfNeeded` keep-alive check, which
may send a NOOP on the control channel).  `localStateWrite` is a local
file-system write of the state file (`createLocalState` or
`updateStateFile`).  `opDone` marks an operation completing in the apply
loop (the `operationsCount++` of the part_001 variant).  `logAll` and
`logStd` are the `all`/`standard`-level log lines. -/
inductive SyncEv where
  | logAll (msg : String)
  | logStd (msg : String)
  | noopProbe
  | ensureDirCall (path : String)
  | cdupCall
  | uploadFromCall (src dst : String)
  | removeCall (path : String)
  | removeDirCall (path : String)
  | statePushCall (src dst : String)
  | localStateWrite
  | opDone (kind : Nat) (name : String)
deriving DecidableEq, Repr

/-- The five operation kinds of the apply loops, numbered by pass:
0 create folder, 1 upload new file, 2 replace file, 3 delete file,
4 delete folder. -/
def passCreateFolder : Nat := 0

/-- Pass number of the upload-new-file loop. -/
def passUpload : Nat := 1

/-- Pass number of the replace-file loop. -/
def passReplace : Nat := 2

/-- Pass number of the delete-file loop. -/
def passDeleteFile : Nat := 3

/-- Pass number of the delete-folder loop. -/
def passDeleteFolder : Nat := 4

/-- The operations `syncLocalToServer` iterates over, in source order:
folder entries of `upload`, then file entries of `upload` other than the
state file, then file entries of `replace` other than the state file,
then file entries of `delete`, then folder entries of `delete`.  The
bucket filters are the loop headers of both variants, which are
identical. -/
def opList (stateName : String) (diffs : DiffResult) : List (Nat × String) :=
  (diffs.upload.filter (fun r => r.type == ItemType.folder)).map
      (fun r => (passCreateFolder, r.name)) ++
  (diffs.upload.filter (fun r => r.type == ItemType.file && r.name != stateName)).map
      (fun r => (passUpload, r.name)) ++
  (diffs.replace.filter (fun r => r.type == ItemType.file && r.name != stateName)).map
      (fun r => (passReplace, r.name)) ++
  (diffs.delete.filter (fun r => r.type == ItemType.file)).map
      (fun r => (passDeleteFile, r.name)) ++
  (diffs.delete.filter (fun r => r.type == ItemType.folder)).map
      (fun r => (passDeleteFolder, r.name))

/-- The `logger.standard` line printed by the part_001 apply loop before
each operation. -/
def opStdMsg (kind : Nat) (name : String) : String :=
  if kind == passCreateFolder then "📁 Creating folder: " ++ name
  else if kind == passUpload then "📄 Uploading new file: " ++ name
  else if kind == passReplace then "🔁 Replacing file: " ++ name
  else if kind == passDeleteFile then "📄 Deleting file: " ++ name
  else "📁 Deleting folder: " ++ name

/-- Trace of `FTPSyncProvider.uploadFile` (identical in both variants):
log the action, run the keep-alive check, and unless dry-run upload
`localPath + filePath` to `filePath` through `safeOperation`. -/
def uploadFileTrace (p : SyncParams) (typePresent : String) (filePath : String) : List SyncEv :=
  [.logAll (typePresent ++ " \"" ++ filePath ++ "\""), .noopProbe] ++
  (if p.dryRun then [] else [.uploadFromCall (p.localPath ++ filePath) filePath])

/-- Trace of `FTPSyncProvider.removeFile` on its success path (identical
in both variants): log, and unless dry-run delete the file through
`safeOperation`. -/
def removeFileTrace (p : SyncParams) (filePath : String) : List SyncEv :=
  [.logAll ("removing \"" ++ filePath ++ "\"")] ++
  (if p.dryRun then [] else [.removeCall filePath])

/-- Trace of `FTPSyncProvider.removeFolder` (identical in both variants):
resolve the absolute path, log it, and unless dry-run request recursive
removal through `safeOperation`. -/
def removeFolderTrace (p : SyncParams) (folderPath : String) : List SyncEv :=
  [.logAll ("removing folder \"" ++ removeFolderAbsolutePath p.serverPath folderPath ++ "\"")] ++
  (if p.dryRun then [] else [.removeDirCall (removeFolderAbsolutePath p.serverPath folderPath)])

/-- The `ensureDir` step of `createFolder`: skipped when the breadcrumb
folder chain is `null`, otherwise one `client.ensureDir` of the joined
chain. -/
def ensureDirEvs (folders : Option (List String)) : List SyncEv :=
  match folders with
  | none => []
  | some fs => [.ensureDirCall (strJoinSlash fs)]

/-- The `upDir(path.folders?.length)` step of `createFolder`: no `cdup`
when the chain is `null`, else one per chain segment. -/
def cdupEvs (folders : Option (List String)) : List SyncEv :=
  match folders with
  | none => []
  | some fs => List.replicate fs.length .cdupCall

namespace SyncP1

/-- Trace of `createFolder` in the part_001 variant: log, return at once
in dry-run, else keep-alive check, `ensureDir` over the breadcrumbs,
`cdup` back up, then push the new entry onto the in-memory state and write
it locally via `createLocalState`. -/
def createFolderTrace (p : SyncParams) (folderPath : String) : List SyncEv :=
  [.logAll ("creating folder \"" ++ folderPath ++ "/\"")] ++
  (if p.dryRun then []
   else
     [.noopProbe] ++
     ensureDirEvs (getFileBreadcrumbs (folderPath ++ "/")).folders ++
     cdupEvs (getFileBreadcrumbs (folderPath ++ "/")).folders ++
     [.localStateWrite])

/-- Trace of one operation of the part_001 apply loop, by pass number. -/
def opTrace (p : SyncParams) (kind : Nat) (name : String) : List SyncEv :=
  if kind == passCreateFolder then createFolderTrace p name
  else if kind == passUpload then uploadFileTrace p "uploading" name
  else if kind == passReplace then uploadFileTrace p "replacing" name
  else if kind == passDeleteFile then removeFileTrace p name
  else removeFolderTrace p name

/-- Trace of the `flushState` closure in the part_001 variant: unless
dry-run, upload the local state file to the server (its failure is caught
and only logged). -/
def flushStateTrace (p : SyncParams) : List SyncEv :=
  if p.dryRun then []
  else [.statePushCall (p.localPath ++ p.stateName) (p.serverPath ++ p.stateName)]

/-- The five apply loops of the part_001 `syncLocalToServer`, flattened
over `opList`: each iteration logs the item, runs the operation,
increments `operationsCount` (the `opDone` marker) and flushes the state
when the count is divisible by 5.  `count` is the number of operations
already completed. -/
def applyOps (p : SyncParams) : List (Nat × String) → Nat → List SyncEv
  | [], _ => []
  | (kind, name) :: rest, count =>
    [.logStd (opStdMsg kind name)] ++ opTrace p kind name ++ [.opDone kind name] ++
    (if (count + 1) % 5 == 0 then flushStateTrace p else []) ++
    applyOps p rest (count + 1)

/-- The four `logger.all` header lines of `syncLocalToServer` (identical
in both variants; `pluralize` and `prettyBytes` formatting elided). -/
def syncHeader (diffs : DiffResult) : List SyncEv :=
  [.logAll "----------------------------------------------------------------",
   .logAll ("Making changes to " ++
     Nat.repr (diffs.delete.length + diffs.upload.length + diffs.replace.length) ++
     " files/folders to sync server state"),
   .logAll ("Uploading: " ++ Nat.repr diffs.sizeUpload ++ " -- Deleting: " ++
     Nat.repr diffs.sizeDelete ++ " -- Replacing: " ++ Nat.repr diffs.sizeReplace),
   .logAll "----------------------------------------------------------------"]

/-- Success-path trace of `FTPSyncProvider.syncLocalToServer` in the
part_001 variant: header, the five apply loops with periodic flushes,
the closing log lines, and a final `flushState`. -/
def syncLocalToServer (p : SyncParams) (diffs : DiffResult) : List SyncEv :=
  syncHeader diffs ++
  applyOps p (opList p.stateName diffs) 0 ++
  [.logAll "----------------------------------------------------------------",
   .logAll "A je to tam! 💩",
   .logAll ("🎉 Sync complete. Saving current server state to \"" ++
     p.serverPath ++ p.stateName ++ "\"")] ++
  flushStateTrace p

end SyncP1

namespace SyncTs

/-- Trace of `createFolder` in the src/syncProvider.ts variant: log,
return at once in dry-run, else keep-alive check, `ensureDir` over the
breadcrumbs, `updateStateFile` (a local state write) and then `cdup` back
up. -/
def createFolderTrace (p : SyncParams) (folderPath : String) : List SyncEv :=
  [.logAll ("creating folder \"" ++ folderPath ++ "/\"")] ++
  (if p.dryRun then []
   else
     [.noopProbe] ++
     ensureDirEvs (getFileBreadcrumbs (folderPath ++ "/")).folders ++
     [.localStateWrite] ++
     cdupEvs (getFileBreadcrumbs (folderPath ++ "/")).folders)

/-- Trace of one operation of the src/syncProvider.ts apply loops, by
pass number. -/
def opTrace (p : SyncParams) (kind : Nat) (name : String) : List SyncEv :=
  if kind == passCreateFolder then createFolderTrace p name
  else if kind == passUpload then uploadFileTrace p "uploading" name
  else if kind == passReplace then uploadFileTrace p "replacing" name
  else if kind == passDeleteFile then removeFileTrace p name
  else removeFolderTrace p name

/-- The five apply loops of the src/syncProvider.ts `syncLocalToServer`
body, run inside its `try`: `fault idx` is the fatal error raised by the
operation at 0-based index `idx` (or `none` when it succeeds).  A faulting
operation ends the loops at once; its own partial log output is elided.
Returns the events of the applied operations and the first fault. -/
def runOps (p : SyncParams) (fault : Nat → Option JsError) :
    List (Nat × String) → Nat → List SyncEv × Option JsError
  | [], _ => ([], none)
  | (kind, name) :: rest, idx =>
    match fault idx with
    | some e => ([], some e)
    | none =>
      let r := runOps p fault rest (idx + 1)
      (opTrace p kind name ++ r.1, r.2)

/-- Trace and outcome of `FTPSyncProvider.syncLocalToServer` in the
src/syncProvider.ts variant: header, then the five loops inside `try`;
on success two closing log lines; on a fault the catch block logs,
writes the state file via `updateStateFile` and re-raises. -/
def syncLocalToServer (p : SyncParams) (diffs : DiffResult)
    (fault : Nat → Option JsError) : List SyncEv × Option JsError :=
  let r := runOps p fault (opList p.stateName diffs) 0
  match r.2 with
  | none =>
    (SyncP1.syncHeader diffs ++ r.1 ++
      [.logAll "----------------------------------------------------------------",
       .logAll "🎉 Sync complete."], none)
  | some e =>
    (SyncP1.syncHeader diffs ++ r.1 ++
      [.logAll ("⚠️ Sync interrupted due to an error: " ++ e.message),
       .localStateWrite], some e)

end SyncTs

/-- Does a trace event mutate the remote target?  Directory creation,
file upload, file and recursive folder deletion, and the state-file push
are mutating; logging, the keep-alive probe, `cdup` navigation, local
file-system writes and loop bookkeeping are not. -/
def isMutating : SyncEv → Bool
  | .ensureDirCall _ => true
  | .uploadFromCall _ _ => true
  | .removeCall _ => true
  | .removeDirCall _ => true
  | .statePushCall _ _ => true
  | _ => false

/-- The mutating transport calls of a trace. -/
def mutCalls (t : List SyncEv) : List SyncEv :=
  t.filter isMutating

/-- Is a trace event an `all`/`standard` log line? -/
def isLogEv : SyncEv → Bool
  | .logAll _ => true
  | .logStd _ => true
  | _ => false

/-- The log lines of a trace. -/
def logs (t : List SyncEv) : List SyncEv :=
  t.filter isLogEv

/-- Project an `opDone` marker. -/
def opDoneOf : SyncEv → Option (Nat × String)
  | .opDone k n => some (k, n)
  | _ => none

/-- The completed operations of a trace, in order. -/
def opDones (t : List SyncEv) : List (Nat × String) :=
  t.filterMap opDoneOf

/-- Is a trace event a push of the state file to the remote target? -/
def isStatePush : SyncEv → Bool
  | .statePushCall _ _ => true
  | _ => false

/-- Is a trace event neutral for the checkpoint checker, i.e. neither an
operation completion nor a state push? -/
def chkNeutral : SyncEv → Bool
  | .opDone _ _ => false
  | .statePushCall _ _ => false
  | _ => true

/-- Checkpoint-cadence checker: scans a trace keeping the number of
completed operations and whether a state push is currently owed (a push is
owed as soon as an operation completes whose 1-based index is divisible
by 5, and must arrive before the next operation completes and before the
trace ends).  Returns `true` when the cadence is respected. -/
def chk : List SyncEv → Nat → Bool → Bool
  | [], _, pending => !pending
  | .opDone _ _ :: rest, count, pending =>
    if pending then false
    else chk rest (count + 1) ((count + 1) % 5 == 0)
  | .statePushCall _ _ :: rest, count, _ => chk rest count false
  | _ :: rest, count, pending => chk rest count pending

/-- A concrete provider configuration used by the concrete evaluations
below: non-dry-run, server path `./`. -/
def sampleParams : SyncParams :=
  { localPath := "local/", serverPath := "./", stateName := "state.json", dryRun := false }

/-- A change set of exactly five new files (and nothing else), used to
evaluate the checkpoint cadence concretely. -/
def fiveUploadDiffs : DiffResult :=
  { upload := [⟨.file, "a1", some 1⟩, ⟨.file, "a2", some 1⟩, ⟨.file, "a3", some 1⟩,
               ⟨.file, "a4", some 1⟩, ⟨.file, "a5", some 1⟩]
    replace := []
    delete := []
    same := []
    sizeUpload := 5
    sizeReplace := 0
    sizeDelete := 0 }

/-- A small mixed change set (one folder creation, one upload, one file
deletion) used to evaluate the fatal-fault path concretely. -/
def mixedDiffs : DiffResult :=
  { upload := [⟨.folder, "f1", none⟩, ⟨.file, "a.txt", some 3⟩]
    replace := []
    delete := [⟨.file, "b.txt", some 2⟩]
    same := []
    sizeUpload := 3
    sizeReplace := 0
    sizeDelete := 2 }

/-- Fault oracle that fails exactly the second operation (index 1). -/
def faultAtOne : Nat → Option JsError :=
  fun i => if i == 1 then some ⟨"boom", none⟩ else none

/-- The `logger.all` line of the operation at pass `kind` for item `name`
(the first event of every operation trace). -/
def opAllMsg (serverPath : String) (kind : Nat) (name : String) : String :=
  if kind == passCreateFolder then "creating folder \"" ++ name ++ "/\""
  else if kind == passUpload then "uploading \"" ++ name ++ "\""
  else if kind == passReplace then "replacing \"" ++ name ++ "\""
  else if kind == passDeleteFile then "removing \"" ++ name ++ "\""
  else "removing folder \"" ++ removeFolderAbsolutePath serverPath name ++ "\""

theorem all_replicate_of {α : Type} (a : α) (p : α → Bool) (h : p a = true) :
    ∀ n, (List.replicate n a).all p = true := by
  intro n
  induction n with
  | zero => rfl
  | succ m ih => simp [List.replicate, h, ih]

theorem filter_replicate_of {α : Type} (a : α) (p : α → Bool) (h : p a = false) :
    ∀ n, (List.replicate n a).filter p = [] := by
  intro n
  induction n with
  | zero => rfl
  | succ m ih => simp [List.replicate, h, ih]

theorem filterMap_replicate_of {α β : Type} (a : α) (f : α → Option β) (h : f a = none) :
    ∀ n, (List.replicate n a).filterMap f = [] := by
  intro n
  induction n with
  | zero => rfl
  | succ m ih => simp [List.replicate, h, ih]

/-- C3: for every operation wrapped by `safeOperation` with the default
budget of 3: if all three attempts fail, the thrown error is exactly the
fatal exhaustion error carrying the attempt count 3 and the message of the
last underlying fault (so the exhaustion is propagated, never swallowed);
if some attempt succeeds (first success at attempt 0, 1 or 2), its value
is returned. -/
theorem safeOperation_exhaustion_and_success {α : Type}
    (op : Nat → Except JsError α) (e0 e1 e2 : JsError) (v : α) :
    (op 0 = .error e0 → op 1 = .error e1 → op 2 = .error e2 →
      (safeOperation op 3).1 = .error ⟨exhaustMsg 3 (some e2), none⟩) ∧
    (op 0 = .ok v → (safeOperation op 3).1 = .ok v) ∧
    (op 0 = .error e0 → op 1 = .ok v → (safeOperation op 3).1 = .ok v) ∧
    (op 0 = .error e0 → op 1 = .error e1 → op 2 = .ok v →
      (safeOperation op 3).1 = .ok v) := by
  refine ⟨fun h0 h1 h2 => ?_, fun h0 => ?_, fun h0 h1 => ?_, fun h0 h1 h2 => ?_⟩
  · simp [safeOperation, safeOpLoop, h0, h1, h2]
  · simp [safeOperation, safeOpLoop, h0]
  · simp [safeOperation, safeOpLoop, h0, h1]
  · simp [safeOperation, safeOpLoop, h0, h1, h2]

/-- Witness for C3: a call failing on all three attempts with message
`boom` throws the exhaustion error whose message names 3 attempts and
`boom`; a call whose third attempt succeeds returns its value. -/
theorem safeOperation_exhaustion_and_success_witness :
    (safeOperation (fun _ => (.error ⟨"boom", some 550⟩ : Except JsError Nat)) 3).1 =
      .error ⟨"Operation failed after 3 attempts: boom", none⟩ ∧
    (safeOperation (fun k => if k == 2 then (.ok 7 : Except JsError Nat)
        else .error ⟨"boom", some 550⟩) 3).1 = .ok 7 := by
  constructor
  · exact (safeOperation_exhaustion_and_success
      (fun _ => (.error ⟨"boom", some 550⟩ : Except JsError Nat))
      ⟨"boom", some 550⟩ ⟨"boom", some 550⟩ ⟨"boom", some 550⟩ 0).1 rfl rfl rfl
  · exact (safeOperation_exhaustion_and_success
      (fun k => if k == 2 then (.ok 7 : Except JsError Nat) else .error ⟨"boom", some 550⟩)
      ⟨"boom", some 550⟩ ⟨"boom", some 550⟩ ⟨"boom", some 550⟩ 7).2.2.2 rfl rfl rfl

/-- C4: inside the retry loop each failure is classified by
`isTransient` (the connection-dropped message signatures); a transient
failure forces a `reconnect` before the next attempt and a non-transient
one retries without reconnecting.  In the scenario of two failures
followed by a success on the third attempt, the wrapped value is
returned and the reconnects performed are exactly one per transient
failure. -/
theorem safeOperation_transient_reconnect {α : Type}
    (op : Nat → Except JsError α) (e0 e1 : JsError) (v : α)
    (h0 : op 0 = .error e0) (h1 : op 1 = .error e1) (h2 : op 2 = .ok v) :
    safeOperation op 3 =
      (.ok v, (if isTransient e0 then [RetryEv.reconnectEv] else []) ++
              (if isTransient e1 then [RetryEv.reconnectEv] else [])) := by
  simp [safeOperation, safeOpLoop, h0, h1, h2]

/-- Witness for C4: an operation failing twice with the two transient
connection-dropped signatures and succeeding on the third attempt returns
its value, with one reconnect after each transient failure. -/
theorem safeOperation_transient_reconnect_witness :
    safeOperation (fun k => if k == 2 then (.ok 7 : Except JsError Nat)
        else if k == 0 then .error ⟨"Client is closed", none⟩
        else .error ⟨"ECONNRESET: Server sent FIN packet", none⟩) 3 =
      (.ok 7, [RetryEv.reconnectEv, RetryEv.reconnectEv]) := by
  have h := safeOperation_transient_reconnect
    (fun k => if k == 2 then (.ok 7 : Except JsError Nat)
      else if k == 0 then .error ⟨"Client is closed", none⟩
      else .error ⟨"ECONNRESET: Server sent FIN packet", none⟩)
    ⟨"Client is closed", none⟩ ⟨"ECONNRESET: Server sent FIN packet", none⟩ 7 rfl rfl rfl
  simpa using h

/-- C5 (code bug): a delete whose every attempt fails with the
`FileNotFoundOrNoAccess` code is NOT tolerated as a no-op.  The error the
catch block of `removeFile` inspects is the fresh exhaustion `Error`
thrown by `safeOperation`, which carries no `code`, so the
not-found/no-access comparison can never match and the fault escalates
instead of being skipped. -/
theorem removeFile_notFound_escalates :
    removeFileResult (fun _ => .error ⟨"550 File not found", some fileNotFoundOrNoAccess⟩)
        false =
      .error ⟨"Operation failed after 3 attempts: 550 File not found", none⟩ ∧
    removeFileResult (fun _ => .error ⟨"550 File not found", some fileNotFoundOrNoAccess⟩)
        false ≠ .ok () := by
  have h1 : removeFileResult
      (fun _ => .error ⟨"550 File not found", some fileNotFoundOrNoAccess⟩) false =
      .error ⟨"Operation failed after 3 attempts: 550 File not found", none⟩ := rfl
  refine ⟨h1, fun hcontra => ?_⟩
  rw [h1] at hcontra
  exact Except.noConfusion hcontra

/-- C6 (counterexample): a state file that downloads and parses
successfully but carries an unrecognized `version` is NOT degraded to an
empty baseline: `getServerFiles` returns it unchanged (no field of the
parsed file is inspected), so the baseline entry list is non-empty. -/
theorem getServerFiles_version_not_checked :
    getServerFiles false (.ok ⟨"s", "0.0.1", 5, [⟨.file, "a.txt", some 3⟩]⟩)
        [] (fun _ => true) 0 =
      ⟨"s", "0.0.1", 5, [⟨.file, "a.txt", some 3⟩]⟩ ∧
    ("0.0.1" : String) ≠ currentSyncFileVersion ∧
    (getServerFiles false (.ok ⟨"s", "0.0.1", 5, [⟨.file, "a.txt", some 3⟩]⟩)
        [] (fun _ => true) 0).data ≠ [] := by
  refine ⟨rfl, by decide, by decide⟩

/-- C6 (amended): when the fetch of the baseline fails or its content does
not parse (any exception inside the try block of `getServerFiles`), the
run does not fail: the baseline degrades to a fresh empty state stamped
with the current schema version, with no partial recovery; a state file
that fetches and parses successfully is used as the baseline unchanged
(with no exclude filters), its `version` never being inspected. -/
theorem getServerFiles_degrade_on_failure :
    (∀ (e : JsError) (exclude : List String) (keep : Rec → Bool) (now : Nat),
      getServerFiles false (.error e) exclude keep now = emptyServerState now) ∧
    (∀ (m : IFileList) (keep : Rec → Bool) (now : Nat),
      getServerFiles false (.ok m) [] keep now = m) := by
  exact ⟨fun e exclude keep now => rfl, fun m keep now => rfl⟩

/-- C9 (counterexample): a remote root expressed as `.` is not normalized
by `removeFolder`: the computed target is `/.docs`, not the `/`-rooted
form `/docs` that the same folder gets under the equivalent root `./`. -/
theorem removeFolder_dot_root_not_normalized :
    removeFolderAbsolutePath "." "docs" = "/.docs" ∧
    removeFolderAbsolutePath "./" "docs" = "/docs" ∧
    removeFolderAbsolutePath "." "docs" ≠ removeFolderAbsolutePath "./" "docs" := by
  refine ⟨rfl, rfl, by decide⟩

/-- C9 (amended): the folder-delete target is always resolved to the
slash-rooted absolute form `"/" ++ root ++ folderPath` before the
recursive removal is requested, where a root with a `./` prefix has that
prefix stripped; a root of exactly `.` receives no special handling. -/
theorem removeFolder_path_resolution (serverPath folderPath : String) :
    (strStartsWith serverPath "./" = true →
      removeFolderAbsolutePath serverPath folderPath =
        "/" ++ strDrop serverPath 2 ++ folderPath) ∧
    (strStartsWith serverPath "./" = false →
      removeFolderAbsolutePath serverPath folderPath =
        "/" ++ serverPath ++ folderPath) := by
  constructor
  · intro h
    simp [removeFolderAbsolutePath, h]
  · intro h
    simp [removeFolderAbsolutePath, h]

/-- Witness for the amended C9: the root `./sub/` is stripped to `sub/`
and the root `sub/` is kept verbatim, both slash-rooted. -/
theorem removeFolder_path_resolution_witness :
    strStartsWith "./sub/" "./" = true ∧
    removeFolderAbsolutePath "./sub/" "docs" = "/sub/docs" ∧
    strStartsWith "sub/" "./" = false ∧
    removeFolderAbsolutePath "sub/" "docs" = "/sub/docs" := by
  refine ⟨by decide, ?_, by decide, ?_⟩
  · have h := (removeFolder_path_resolution "./sub/" "docs").1 (by decide)
    simpa using h
  · have h := (removeFolder_path_resolution "sub/" "docs").2 (by decide)
    simpa using h

/-- C10: whatever protocol (`ftp`/`ftps`/`ftps-legacy`), security
(`strict`/`loose`) and port the original `connect` used, the session
`reconnect` establishes after a transient fault always uses explicit TLS
(`secure: true`) with certificate validation disabled
(`rejectUnauthorized: false`) and passes no port, while the original
connection honoured all three settings. -/
theorem reconnect_fixed_security (args : DeployArgs) :
    (reconnectAccessConfig args.server args.username args.password).secure =
      SecureMode.explicitTLS ∧
    (reconnectAccessConfig args.server args.username args.password).rejectUnauthorized =
      false ∧
    (reconnectAccessConfig args.server args.username args.password).port = none ∧
    (connectAccessConfig args).port = some args.port ∧
    (connectAccessConfig args).secure = secureModeFor args.protocol ∧
    (connectAccessConfig args).rejectUnauthorized = (args.security == FtpSecurity.strict) := by
  exact ⟨rfl, rfl, rfl, rfl, rfl, rfl⟩

theorem opDones_append (a b : List SyncEv) : opDones (a ++ b) = opDones a ++ opDones b := by
  simp [opDones]

theorem logs_append (a b : List SyncEv) : logs (a ++ b) = logs a ++ logs b := by
  simp [logs]

theorem mutCalls_append (a b : List SyncEv) : mutCalls (a ++ b) = mutCalls a ++ mutCalls b := by
  simp [mutCalls]

theorem opDones_ensureDirEvs (fo : Option (List String)) : opDones (ensureDirEvs fo) = [] := by
  cases fo <;> simp [ensureDirEvs, opDones, opDoneOf]

theorem opDones_cdupEvs (fo : Option (List String)) : opDones (cdupEvs fo) = [] := by
  cases fo <;>
    simp [cdupEvs, opDones, filterMap_replicate_of SyncEv.cdupCall opDoneOf rfl]

theorem opDones_uploadFileTrace (p : SyncParams) (ty n : String) :
    opDones (uploadFileTrace p ty n) = [] := by
  cases hd : p.dryRun <;> simp [uploadFileTrace, hd, opDones, opDoneOf]

theorem opDones_removeFileTrace (p : SyncParams) (n : String) :
    opDones (removeFileTrace p n) = [] := by
  cases hd : p.dryRun <;> simp [removeFileTrace, hd, opDones, opDoneOf]

theorem opDones_removeFolderTrace (p : SyncParams) (n : String) :
    opDones (removeFolderTrace p n) = [] := by
  cases hd : p.dryRun <;> simp [removeFolderTrace, hd, opDones, opDoneOf]

theorem opDones_createFolderTraceP1 (p : SyncParams) (n : String) :
    opDones (SyncP1.createFolderTrace p n) = [] := by
  cases hd : p.dryRun
  · simp [SyncP1.createFolderTrace, hd, opDones, opDoneOf, List.filterMap_append,
      opDones_ensureDirEvs, opDones_cdupEvs]
    constructor
    · have h := opDones_ensureDirEvs (getFileBreadcrumbs (n ++ "/")).folders
      simpa [opDones] using h
    · have h := opDones_cdupEvs (getFileBreadcrumbs (n ++ "/")).folders
      simpa [opDones] using h
  · simp [SyncP1.createFolderTrace, hd, opDones, opDoneOf]

theorem opDones_opTraceP1 (p : SyncParams) (k : Nat) (n : String) :
    opDones (SyncP1.opTrace p k n) = [] := by
  unfold SyncP1.opTrace
  split_ifs <;>
    first
      | exact opDones_createFolderTraceP1 p n
      | exact opDones_uploadFileTrace p "uploading" n
      | exact opDones_uploadFileTrace p "replacing" n
      | exact opDones_removeFileTrace p n
      | exact opDones_removeFolderTrace p n

theorem opDones_flushState (p : SyncParams) : opDones (SyncP1.flushStateTrace p) = [] := by
  cases hd : p.dryRun <;> simp [SyncP1.flushStateTrace, hd, opDones, opDoneOf]

theorem opDones_syncHeader (diffs : DiffResult) : opDones (SyncP1.syncHeader diffs) = [] := rfl

theorem opDones_cons_logStd (m : String) (t : List SyncEv) :
    opDones (SyncEv.logStd m :: t) = opDones t := by
  simp [opDones, opDoneOf]

theorem opDones_cons_opDone (k : Nat) (n : String) (t : List SyncEv) :
    opDones (SyncEv.opDone k n :: t) = (k, n) :: opDones t := by
  simp [opDones, opDoneOf]

theorem opDones_nil : opDones [] = [] := rfl

theorem opDones_cons_logAll (m : String) (t : List SyncEv) :
    opDones (SyncEv.logAll m :: t) = opDones t := by
  simp [opDones, opDoneOf]

theorem opDones_applyOps (p : SyncParams) :
    ∀ (ops : List (Nat × String)) (c : Nat), opDones (SyncP1.applyOps p ops c) = ops := by
  intro ops
  induction ops with
  | nil => intro c; simp [SyncP1.applyOps, opDones]
  | cons op t ih =>
    intro c
    obtain ⟨k, n⟩ := op
    cases h5 : (c + 1) % 5 == 0 <;>
      simp [SyncP1.applyOps, h5, opDones_append, opDones_cons_logStd, opDones_cons_opDone,
        opDones_nil, opDones_opTraceP1, opDones_flushState, ih (c + 1)]

theorem pairwise_block_append (k : Nat) (f : Rec → String) (l2 : List (Nat × String))
    (h2 : l2.Pairwise (fun a b => a.1 ≤ b.1)) (hk : ∀ x ∈ l2, k ≤ x.1) :
    ∀ l1 : List Rec,
      ((l1.map (fun r => (k, f r))) ++ l2).Pairwise (fun a b => a.1 ≤ b.1) ∧
      (∀ x ∈ (l1.map (fun r => (k, f r))) ++ l2, k ≤ x.1) := by
  intro l1
  induction l1 with
  | nil => exact ⟨by simpa using h2, by simpa using hk⟩
  | cons r t ih =>
    constructor
    · refine List.Pairwise.cons ?_ ih.1
      intro b hb
      exact ih.2 b hb
    · intro x hx
      rcases List.mem_cons.mp hx with h | h
      · subst h; exact Nat.le_refl k
      · exact ih.2 x h

/-- C1: the operations `syncLocalToServer` completes are exactly the five
buckets of the change set in the fixed pass order -- folder creations,
then new-file uploads, then replacements, then file deletions, then
folder deletions (`opList`) -- and consequently the pass number is
monotone along the trace: no operation of a later pass completes before
every operation of the earlier passes has.  The loops are sequential and
awaited, so trace order is execution order. -/
theorem syncLocalToServer_five_passes (p : SyncParams) (diffs : DiffResult) :
    opDones (SyncP1.syncLocalToServer p diffs) = opList p.stateName diffs ∧
    List.Pairwise (fun a b => a.1 ≤ b.1) (opDones (SyncP1.syncLocalToServer p diffs)) := by
  have heq : opDones (SyncP1.syncLocalToServer p diffs) = opList p.stateName diffs := by
    simp [SyncP1.syncLocalToServer, opDones_append, opDones_syncHeader,
      opDones_applyOps, opDones_flushState, opDones_cons_logAll, opDones_nil]
  refine ⟨heq, heq ▸ ?_⟩
  unfold opList
  simp only [List.append_assoc]
  have b4 := pairwise_block_append passDeleteFolder (fun r => r.name) []
    List.Pairwise.nil (by intro x hx; cases hx)
    (diffs.delete.filter (fun r => r.type == ItemType.folder))
  rw [List.append_nil] at b4
  have b3 := pairwise_block_append passDeleteFile (fun r => r.name) _
    b4.1 (fun x hx => Nat.le_trans (by decide) (b4.2 x hx))
    (diffs.delete.filter (fun r => r.type == ItemType.file))
  have b2 := pairwise_block_append passReplace (fun r => r.name) _
    b3.1 (fun x hx => Nat.le_trans (by decide) (b3.2 x hx))
    (diffs.replace.filter (fun r => r.type == ItemType.file && r.name != p.stateName))
  have b1 := pairwise_block_append passUpload (fun r => r.name) _
    b2.1 (fun x hx => Nat.le_trans (by decide) (b2.2 x hx))
    (diffs.upload.filter (fun r => r.type == ItemType.file && r.name != p.stateName))
  have b0 := pairwise_block_append passCreateFolder (fun r => r.name) _
    b1.1 (fun x hx => Nat.le_trans (by decide) (b1.2 x hx))
    (diffs.upload.filter (fun r => r.type == ItemType.folder))
  simpa using b0.1

theorem logs_nil : logs [] = [] := rfl

theorem logs_cons_logAll (m : String) (t : List SyncEv) :
    logs (SyncEv.logAll m :: t) = SyncEv.logAll m :: logs t := by
  simp [logs, isLogEv]

theorem logs_cons_logStd (m : String) (t : List SyncEv) :
    logs (SyncEv.logStd m :: t) = SyncEv.logStd m :: logs t := by
  simp [logs, isLogEv]

theorem logs_cons_opDone (k : Nat) (n : String) (t : List SyncEv) :
    logs (SyncEv.opDone k n :: t) = logs t := by
  simp [logs, isLogEv]

theorem mutCalls_nil : mutCalls [] = [] := rfl

theorem mutCalls_cons_logAll (m : String) (t : List SyncEv) :
    mutCalls (SyncEv.logAll m :: t) = mutCalls t := by
  simp [mutCalls, isMutating]

theorem mutCalls_cons_logStd (m : String) (t : List SyncEv) :
    mutCalls (SyncEv.logStd m :: t) = mutCalls t := by
  simp [mutCalls, isMutating]

theorem mutCalls_cons_opDone (k : Nat) (n : String) (t : List SyncEv) :
    mutCalls (SyncEv.opDone k n :: t) = mutCalls t := by
  simp [mutCalls, isMutating]

theorem logs_ensureDirEvs (fo : Option (List String)) : logs (ensureDirEvs fo) = [] := by
  cases fo <;> simp [ensureDirEvs, logs, isLogEv]

theorem logs_cdupEvs (fo : Option (List String)) : logs (cdupEvs fo) = [] := by
  cases fo <;> simp [cdupEvs, logs, filter_replicate_of SyncEv.cdupCall isLogEv rfl]

theorem logs_createFolderTraceP1 (p : SyncParams) (n : String) :
    logs (SyncP1.createFolderTrace p n) =
      [SyncEv.logAll ("creating folder \"" ++ n ++ "/\"")] := by
  cases hd : p.dryRun
  · simp [SyncP1.createFolderTrace, hd, logs, isLogEv, List.filter_append]
    constructor
    · have h := logs_ensureDirEvs (getFileBreadcrumbs (n ++ "/")).folders
      simpa [logs] using h
    · have h := logs_cdupEvs (getFileBreadcrumbs (n ++ "/")).folders
      simpa [logs] using h
  · simp [SyncP1.createFolderTrace, hd, logs, isLogEv]

theorem logs_opTraceP1 (p : SyncParams) (k : Nat) (n : String) :
    logs (SyncP1.opTrace p k n) = [SyncEv.logAll (opAllMsg p.serverPath k n)] := by
  unfold SyncP1.opTrace opAllMsg
  split_ifs
  · exact logs_createFolderTraceP1 p n
  · cases hd : p.dryRun <;> simp [uploadFileTrace, hd, logs, isLogEv]
  · cases hd : p.dryRun <;> simp [uploadFileTrace, hd, logs, isLogEv]
  · cases hd : p.dryRun <;> simp [removeFileTrace, hd, logs, isLogEv]
  · cases hd : p.dryRun <;> simp [removeFolderTrace, hd, logs, isLogEv]

theorem logs_flushState (p : SyncParams) : logs (SyncP1.flushStateTrace p) = [] := by
  cases hd : p.dryRun <;> simp [SyncP1.flushStateTrace, hd, logs, isLogEv]

theorem mutCalls_opTraceP1_dry (p : SyncParams) (hd : p.dryRun = true) (k : Nat) (n : String) :
    mutCalls (SyncP1.opTrace p k n) = [] := by
  unfold SyncP1.opTrace
  split_ifs
  · simp [SyncP1.createFolderTrace, hd, mutCalls, isMutating]
  · simp [uploadFileTrace, hd, mutCalls, isMutating]
  · simp [uploadFileTrace, hd, mutCalls, isMutating]
  · simp [removeFileTrace, hd, mutCalls, isMutating]
  · simp [removeFolderTrace, hd, mutCalls, isMutating]

theorem mutCalls_flushState_dry (p : SyncParams) (hd : p.dryRun = true) :
    mutCalls (SyncP1.flushStateTrace p) = [] := by
  simp [SyncP1.flushStateTrace, hd, mutCalls]

theorem mutCalls_applyOps_dry (p : SyncParams) (hd : p.dryRun = true) :
    ∀ (ops : List (Nat × String)) (c : Nat), mutCalls (SyncP1.applyOps p ops c) = [] := by
  intro ops
  induction ops with
  | nil => intro c; simp [SyncP1.applyOps, mutCalls]
  | cons op t ih =>
    intro c
    obtain ⟨k, n⟩ := op
    cases h5 : (c + 1) % 5 == 0 <;>
      simp [SyncP1.applyOps, h5, mutCalls_append, mutCalls_cons_logStd, mutCalls_cons_opDone,
        mutCalls_nil, mutCalls_opTraceP1_dry p hd, mutCalls_flushState_dry p hd, ih (c + 1)]

theorem logs_applyOps_dry_indep (lp sp sn : String) :
    ∀ (ops : List (Nat × String)) (c : Nat),
      logs (SyncP1.applyOps ⟨lp, sp, sn, true⟩ ops c) =
        logs (SyncP1.applyOps ⟨lp, sp, sn, false⟩ ops c) := by
  intro ops
  induction ops with
  | nil => intro c; rfl
  | cons op t ih =>
    intro c
    obtain ⟨k, n⟩ := op
    cases h5 : (c + 1) % 5 == 0 <;>
      simp [SyncP1.applyOps, h5, logs_append, logs_cons_logStd, logs_cons_opDone, logs_nil,
        logs_opTraceP1, logs_flushState, ih (c + 1)]

theorem mutCalls_syncHeader (diffs : DiffResult) : mutCalls (SyncP1.syncHeader diffs) = [] := rfl

theorem logs_syncHeader (diffs : DiffResult) :
    logs (SyncP1.syncHeader diffs) = SyncP1.syncHeader diffs := rfl

/-- C8: in dry-run mode `syncLocalToServer` issues zero mutating transport
calls -- no directory creation, no upload, no file or folder deletion and
no state-file push -- while it still walks the identical change set: its
`all`/`standard` log lines and its sequence of completed operations are
the same as those of the non-dry-run with the same arguments (the diff
itself is computed upstream of the provider and is the same input object
in both modes). -/
theorem syncLocalToServer_dry_run (lp sp sn : String) (diffs : DiffResult) :
    mutCalls (SyncP1.syncLocalToServer ⟨lp, sp, sn, true⟩ diffs) = [] ∧
    logs (SyncP1.syncLocalToServer ⟨lp, sp, sn, true⟩ diffs) =
      logs (SyncP1.syncLocalToServer ⟨lp, sp, sn, false⟩ diffs) ∧
    opDones (SyncP1.syncLocalToServer ⟨lp, sp, sn, true⟩ diffs) =
      opDones (SyncP1.syncLocalToServer ⟨lp, sp, sn, false⟩ diffs) := by
  refine ⟨?_, ?_, ?_⟩
  · simp [SyncP1.syncLocalToServer, mutCalls_append, mutCalls_syncHeader,
      mutCalls_applyOps_dry ⟨lp, sp, sn, true⟩ rfl, mutCalls_flushState_dry ⟨lp, sp, sn, true⟩ rfl,
      mutCalls_cons_logAll, mutCalls_nil]
  · simp [SyncP1.syncLocalToServer, logs_append, logs_syncHeader, logs_applyOps_dry_indep,
      logs_flushState, logs_cons_logAll, logs_nil]
  · simp [SyncP1.syncLocalToServer, opDones_append, opDones_syncHeader,
      opDones_applyOps, opDones_flushState, opDones_cons_logAll, opDones_nil]

theorem all_chkNeutral_ensureDirEvs (fo : Option (List String)) :
    (ensureDirEvs fo).all chkNeutral = true := by
  cases fo <;> simp [ensureDirEvs, chkNeutral]

theorem all_chkNeutral_cdupEvs (fo : Option (List String)) :
    (cdupEvs fo).all chkNeutral = true := by
  cases fo <;> simp [cdupEvs, all_replicate_of SyncEv.cdupCall chkNeutral rfl]

theorem all_chkNeutral_opTraceP1 (p : SyncParams) (k : Nat) (n : String) :
    (SyncP1.opTrace p k n).all chkNeutral = true := by
  unfold SyncP1.opTrace
  split_ifs
  · cases hd : p.dryRun <;>
      simp [SyncP1.createFolderTrace, hd, chkNeutral, List.all_append,
        all_chkNeutral_ensureDirEvs, all_chkNeutral_cdupEvs]
  · cases hd : p.dryRun <;> simp [uploadFileTrace, hd, chkNeutral]
  · cases hd : p.dryRun <;> simp [uploadFileTrace, hd, chkNeutral]
  · cases hd : p.dryRun <;> simp [removeFileTrace, hd, chkNeutral]
  · cases hd : p.dryRun <;> simp [removeFolderTrace, hd, chkNeutral]

theorem chk_neutral_append (rest : List SyncEv) (c : Nat) (pend : Bool) :
    ∀ evs : List SyncEv, evs.all chkNeutral = true →
      chk (evs ++ rest) c pend = chk rest c pend := by
  intro evs
  induction evs with
  | nil => intro h; rfl
  | cons e t ih =>
    intro h
    rw [List.all_cons] at h
    cases e
    case opDone k n => simp [chkNeutral] at h
    case statePushCall src dst => simp [chkNeutral] at h
    all_goals (
      rw [List.cons_append]
      have ht : t.all chkNeutral = true := by
        revert h
        simp [chkNeutral]
      show chk (t ++ rest) c pend = chk rest c pend
      exact ih ht)

theorem chk_applyOps (p : SyncParams) (hd : p.dryRun = false) (rest : List SyncEv) :
    ∀ (ops : List (Nat × String)) (c : Nat),
      chk (SyncP1.applyOps p ops c ++ rest) c false = chk rest (c + ops.length) false := by
  intro ops
  induction ops with
  | nil => intro c; simp [SyncP1.applyOps]
  | cons op t ih =>
    intro c
    obtain ⟨k, n⟩ := op
    simp only [SyncP1.applyOps, List.append_assoc, List.cons_append, List.nil_append]
    show chk (SyncP1.opTrace p k n ++ (SyncEv.opDone k n ::
        ((if (c + 1) % 5 == 0 then SyncP1.flushStateTrace p else []) ++
          (SyncP1.applyOps p t (c + 1) ++ rest)))) c false = _
    rw [chk_neutral_append _ _ _ _ (all_chkNeutral_opTraceP1 p k n)]
    show chk ((if (c + 1) % 5 == 0 then SyncP1.flushStateTrace p else []) ++
        (SyncP1.applyOps p t (c + 1) ++ rest)) (c + 1) ((c + 1) % 5 == 0) = _
    cases h5 : (c + 1) % 5 == 0
    · rw [if_neg (by simp [h5]), List.nil_append, ih (c + 1)]
      simp [List.length_cons, Nat.add_comm, Nat.add_assoc, Nat.add_left_comm]
    · rw [if_pos (by simp [h5])]
      rw [show SyncP1.flushStateTrace p =
        [SyncEv.statePushCall (p.localPath ++ p.stateName) (p.serverPath ++ p.stateName)] from by
          simp [SyncP1.flushStateTrace, hd]]
      rw [List.cons_append]
      show chk (SyncP1.applyOps p t (c + 1) ++ rest) (c + 1) false = _
      rw [ih (c + 1)]
      simp [List.length_cons, Nat.add_comm, Nat.add_assoc, Nat.add_left_comm]

/-- C2 (amended): in a non-dry-run, after every operation whose running
count (across all five passes) is divisible by 5, `syncLocalToServer`
pushes the local state file to the remote target before the next
operation completes, and a final push closes the run.  (The push is the
whole checkpoint: no serialization of the in-memory state to local
storage accompanies it -- see the counterexample theorem -- and a failed
push is caught and logged, not escalated.) -/
theorem syncLocalToServer_flush_every5 (p : SyncParams) (diffs : DiffResult)
    (hd : p.dryRun = false) :
    chk (SyncP1.syncLocalToServer p diffs) 0 false = true := by
  unfold SyncP1.syncLocalToServer
  simp only [List.append_assoc, List.cons_append, List.nil_append]
  rw [chk_neutral_append _ _ _ _ (show (SyncP1.syncHeader diffs).all chkNeutral = true from rfl)]
  rw [chk_applyOps p hd _ (opList p.stateName diffs) 0]
  rw [show SyncP1.flushStateTrace p =
    [SyncEv.statePushCall (p.localPath ++ p.stateName) (p.serverPath ++ p.stateName)] from by
      simp [SyncP1.flushStateTrace, hd]]
  rfl

/-- Witness for the amended C2: the cadence checker accepts the trace of
a non-dry-run applying five new-file uploads. -/
theorem syncLocalToServer_flush_every5_witness :
    sampleParams.dryRun = false ∧
    chk (SyncP1.syncLocalToServer sampleParams fiveUploadDiffs) 0 false = true :=
  ⟨rfl, syncLocalToServer_flush_every5 sampleParams fiveUploadDiffs rfl⟩

/-- C2 (counterexample): in the non-dry-run sync of five new files the
orchestrator completes 5 operations and pushes the state file twice (the
5th-operation checkpoint and the final flush), yet performs not a single
serialization of the in-memory state to local durable storage: the claim
that each checkpoint first serializes the current state locally is false,
and the pushed file cannot reflect any of the five applied operations, so
more than 5 operations of work can be missing from the next baseline. -/
theorem syncLocalToServer_no_local_serialization :
    (opDones (SyncP1.syncLocalToServer sampleParams fiveUploadDiffs)).length = 5 ∧
    (SyncP1.syncLocalToServer sampleParams fiveUploadDiffs).countP isStatePush = 2 ∧
    (SyncP1.syncLocalToServer sampleParams fiveUploadDiffs).countP
      (fun e => match e with
        | SyncEv.localStateWrite => true
        | _ => false) = 0 := by
  refine ⟨by decide, by decide, by decide⟩

theorem runOps_first_fault (p : SyncParams) (fault : Nat → Option JsError) (e : JsError) :
    ∀ (ops : List (Nat × String)) (base idx : Nat),
      fault (base + idx) = some e → (∀ j, j < idx → fault (base + j) = none) →
      idx < ops.length →
      SyncTs.runOps p fault ops base =
        ((ops.take idx).flatMap (fun op => SyncTs.opTrace p op.1 op.2), some e) := by
  intro ops
  induction ops with
  | nil =>
    intro base idx hf hprev hlen
    exact absurd hlen (by simp)
  | cons op t ih =>
    intro base idx hf hprev hlen
    obtain ⟨k, n⟩ := op
    cases idx with
    | zero =>
      have h0 : fault base = some e := by simpa using hf
      simp [SyncTs.runOps, h0]
    | succ m =>
      have h0 : fault base = none := by simpa using hprev 0 (Nat.succ_pos m)
      have hf2 : fault (base + 1 + m) = some e := by
        have harith : base + (m + 1) = base + 1 + m := by omega
        rw [← harith]
        exact hf
      have hprev2 : ∀ j, j < m → fault (base + 1 + j) = none := by
        intro j hj
        have harith : base + 1 + j = base + (j + 1) := by omega
        rw [harith]
        exact hprev (j + 1) (by omega)
      have hlen2 : m < t.length := by
        simpa using Nat.lt_of_succ_lt_succ hlen
      have hrec := ih (base + 1) m hf2 hprev2 hlen2
      simp [SyncTs.runOps, h0, hrec, List.take_succ_cons]

/-- C7: in the src/syncProvider.ts variant of `syncLocalToServer`, a
fatal fault raised by the operation at index `idx` of the change-set
aborts the remainder -- the trace carries exactly the operations before
`idx` -- and before the fault is re-raised (the `some e` outcome) the
catch block logs the interruption and writes the state file once
(`updateStateFile`, the `localStateWrite` event): the final checkpoint
attempt precedes every re-raise. -/
theorem syncLocalToServer_checkpoint_on_fault (p : SyncParams) (diffs : DiffResult)
    (fault : Nat → Option JsError) (idx : Nat) (e : JsError)
    (hf : fault idx = some e) (hprev : ∀ j, j < idx → fault j = none)
    (hlen : idx < (opList p.stateName diffs).length) :
    SyncTs.syncLocalToServer p diffs fault =
      (SyncP1.syncHeader diffs ++
        ((opList p.stateName diffs).take idx).flatMap (fun op => SyncTs.opTrace p op.1 op.2) ++
        [SyncEv.logAll ("⚠️ Sync interrupted due to an error: " ++ e.message),
         SyncEv.localStateWrite],
       some e) := by
  have h := runOps_first_fault p fault e (opList p.stateName diffs) 0 idx
    (by simpa using hf) (fun j hj => by simpa using hprev j hj) hlen
  simp [SyncTs.syncLocalToServer, h]

/-- Witness for C7: with a mixed three-operation change set whose second
operation faults with `boom`, the sync applies only the first operation,
logs the interruption, writes the state file and re-raises `boom`. -/
theorem syncLocalToServer_checkpoint_on_fault_witness :
    SyncTs.syncLocalToServer sampleParams mixedDiffs faultAtOne =
      (SyncP1.syncHeader mixedDiffs ++
        ((opList sampleParams.stateName mixedDiffs).take 1).flatMap
          (fun op => SyncTs.opTrace sampleParams op.1 op.2) ++
        [SyncEv.logAll ("⚠️ Sync interrupted due to an error: " ++ "boom"),
         SyncEv.localStateWrite],
       some ⟨"boom", none⟩) := by
  exact syncLocalToServer_checkpoint_on_fault sampleParams mixedDiffs faultAtOne 1
    ⟨"boom", none⟩ rfl
    (fun j hj => by
      have hj0 : j = 0 := Nat.lt_one_iff.mp hj
      subst hj0
      rfl)
    (by decide)
